import Mathlib

/-!
Verification development for the World_Sim planetary-interior simulation
(Rust sources under src/earth/).  Machine floating-point arithmetic (f32/f64)
is embedded as exact rational arithmetic over ℚ; the f32 constant
std::f32::consts::PI is embedded as its exact rational value.  Console output
(println!) is pure I/O and is omitted; every state mutation is kept.
-/

/-- Exact rational value of the Rust constant std::f32::consts::PI
(the IEEE-754 single-precision number closest to π). -/
def ratPI : ℚ := 13176795 / 4194304

/-- Truncation toward zero on ℚ, as Rust float-to-integer truncation. -/
def ratTrunc (q : ℚ) : ℤ := if 0 ≤ q then ⌊q⌋ else ⌈q⌉

/-- Rust's `%` on floats: remainder with the sign of the dividend,
x % y = x - y * trunc (x / y). -/
def rustRem (x y : ℚ) : ℚ := x - y * (ratTrunc (x / y) : ℚ)

/-- Outcome of a Rust function that can `panic!`: either a normal value or a
process-terminating panic carrying the panic message. -/
inductive RustOutcome (α : Type) where
  | ok (val : α)
  | panicked (msg : String)
deriving DecidableEq

/-- State of `Crust` (src/earth/crust.rs). -/
structure Crust where
  thickness_km : ℚ
  type_name : String
  age_myr : ℚ
  composition : String
  average_density : ℚ
  heat_flux_out : ℚ
  tectonic_activity_factor : ℚ
  volcanic_activity_factor : ℚ
  erosion_rate_mm_per_yr : ℚ
  is_active_margin : Bool
  mineral_distribution : String
  sediment_thickness_km : ℚ
  surface_temperature_c : ℚ
  surface_albedo : ℚ
  groundwater_content_pct : ℚ
  isostasy_adjustment_km : ℚ
  vegetation_coverage_pct : ℚ
  surface_roughness_factor : ℚ
deriving DecidableEq

/-- The `"continental"` initial variant of `Crust::new`. -/
def continentalCrust : Crust where
  thickness_km := 35.0
  type_name := "continental"
  age_myr := 1000.0
  composition := "granite-dominated"
  average_density := 2700.0
  heat_flux_out := 0.06
  tectonic_activity_factor := 0.5
  volcanic_activity_factor := 0.2
  erosion_rate_mm_per_yr := 0.1
  is_active_margin := false
  mineral_distribution := "silicates, minor iron"
  sediment_thickness_km := 2.0
  surface_temperature_c := 15.0
  surface_albedo := 0.3
  groundwater_content_pct := 5.0
  isostasy_adjustment_km := 0.0
  vegetation_coverage_pct := 50.0
  surface_roughness_factor := 0.5

/-- The `"oceanic"` initial variant of `Crust::new`. -/
def oceanicCrust : Crust where
  thickness_km := 7.0
  type_name := "oceanic"
  age_myr := 50.0
  composition := "basalt-dominated"
  average_density := 2900.0
  heat_flux_out := 0.08
  tectonic_activity_factor := 0.7
  volcanic_activity_factor := 0.6
  erosion_rate_mm_per_yr := 0.5
  is_active_margin := true
  mineral_distribution := "basalts, sulfides"
  sediment_thickness_km := 0.5
  surface_temperature_c := 4.0
  surface_albedo := 0.1
  groundwater_content_pct := 1.0
  isostasy_adjustment_km := 0.0
  vegetation_coverage_pct := 0.0
  surface_roughness_factor := 0.8

/-- `Crust::new(type_name)`: the two supported variants; any other string hits
`panic!("Invalid crust type! Use 'continental' or 'oceanic'.")`. -/
def Crust.new (type_name : String) : RustOutcome Crust :=
  match type_name with
  | "continental" => .ok continentalCrust
  | "oceanic" => .ok oceanicCrust
  | _ => .panicked "Invalid crust type! Use \x27continental\x27 or \x27oceanic\x27."

/-- `Crust::grow_by_volcanism`: adds magma_supply_km3 / 1_000_000 to the
thickness (no clamp), resets age to 0, returns the added thickness. -/
def Crust.grow_by_volcanism (c : Crust) (magma_supply_km3 : ℚ) : Crust × ℚ :=
  let added_thickness := magma_supply_km3 / 1000000
  ({ c with thickness_km := c.thickness_km + added_thickness, age_myr := 0 },
   added_thickness)

/-- `Crust::erode`: subtracts (erosion_rate_mm_per_yr * years) / 1_000_000 from
the thickness, floors the thickness at 5, returns the computed erosion. -/
def Crust.erode (c : Crust) (years : ℚ) : Crust × ℚ :=
  let erosion_km := c.erosion_rate_mm_per_yr * years / 1000000
  let t := c.thickness_km - erosion_km
  ({ c with thickness_km := if t < 5 then 5 else t }, erosion_km)

/-- `Crust::update_tectonics`: adds plate_motion_cm_per_year / 100 *
tectonic_activity_factor to the thickness, caps the thickness at 70,
returns the deformation. -/
def Crust.update_tectonics (c : Crust) (plate_motion_cm_per_year : ℚ) : Crust × ℚ :=
  let deformation := plate_motion_cm_per_year / 100 * c.tectonic_activity_factor
  let t := c.thickness_km + deformation
  ({ c with thickness_km := if 70 < t then 70 else t }, deformation)

/-- `Crust::update_vegetation`: adds change_pct to vegetation_coverage_pct and
clamps the result into [0, 100]. -/
def Crust.update_vegetation (c : Crust) (change_pct : ℚ) : Crust :=
  let v := c.vegetation_coverage_pct + change_pct
  let v := if 100 < v then 100 else v
  let v := if v < 0 then 0 else v
  { c with vegetation_coverage_pct := v }

/-- One call in a sequence of thickness-mutating crust operations. -/
inductive CrustOp where
  | erodeOp (years : ℚ)
  | growOp (magma_supply_km3 : ℚ)
  | tectOp (plate_motion_cm_per_year : ℚ)
deriving DecidableEq

/-- Apply one crust operation, discarding the returned delta. -/
def applyCrustOp (c : Crust) : CrustOp → Crust
  | .erodeOp y => (c.erode y).1
  | .growOp m => (c.grow_by_volcanism m).1
  | .tectOp v => (c.update_tectonics v).1

/-- Apply a sequence of crust operations in order. -/
def applyCrustOps (c : Crust) (ops : List CrustOp) : Crust :=
  ops.foldl applyCrustOp c

/-- The operation's argument is non-negative. -/
def CrustOp.nonneg : CrustOp → Prop
  | .erodeOp y => 0 ≤ y
  | .growOp m => 0 ≤ m
  | .tectOp v => 0 ≤ v

instance : DecidablePred CrustOp.nonneg := by
  intro op; cases op <;> simp [CrustOp.nonneg] <;> infer_instance

/-- The operation is a grow_by_volcanism call. -/
def CrustOp.isGrow : CrustOp → Prop
  | .growOp _ => True
  | _ => False

instance : DecidablePred CrustOp.isGrow := by
  intro op; cases op <;> simp [CrustOp.isGrow] <;> infer_instance

/-- State of `InnerCore` (src/earth/inner_core.rs). -/
structure InnerCore where
  radius_km : ℚ
  temperature_c : ℚ
  pressure_gpa : ℚ
  iron_pct : ℚ
  nickel_pct : ℚ
  other_elements_pct : ℚ
  heat_flux_mw_per_m2 : ℚ
  crystallization_rate_mm_per_year : ℚ
  mass_kg : ℚ
  age_myr : ℚ
  rotation_offset_deg_per_year : ℚ
  magnetic_contribution_factor : ℚ
  crystal_anisotropy_factor : ℚ
  latent_heat_release_tj_per_year : ℚ
  asymmetric_growth_factor : ℚ
deriving DecidableEq

/-- `InnerCore::new()`: the fixed initial state. -/
def InnerCore.new : InnerCore where
  radius_km := 1221.0
  temperature_c := 5400.0
  pressure_gpa := 330.0
  iron_pct := 80.0
  nickel_pct := 20.0
  other_elements_pct := 0.0
  heat_flux_mw_per_m2 := 0.05
  crystallization_rate_mm_per_year := 1.0
  mass_kg := 9.7e22
  age_myr := 1000.0
  rotation_offset_deg_per_year := 0.1
  magnetic_contribution_factor := 0.9
  crystal_anisotropy_factor := 0.5
  latent_heat_release_tj_per_year := 50.0
  asymmetric_growth_factor := 0.1

/-- `InnerCore::update_mass`: recomputes mass from the sphere-volume formula
(4/3)·π·(radius_km·1000)³ at fixed density 12_800. -/
def InnerCore.update_mass (s : InnerCore) : InnerCore :=
  let radius_m := s.radius_km * 1000
  let volume_m3 := (4 / 3) * ratPI * radius_m ^ 3
  let density : ℚ := 12800
  { s with mass_kg := volume_m3 * density }

/-- `InnerCore::update_heat_flux`: flux = (k · (T − 4300) / (4·π·r_m²)) · 1e-6. -/
def InnerCore.update_heat_flux (s : InnerCore) : InnerCore :=
  let radius_m := s.radius_km * 1000
  let area_m2 := 4 * ratPI * radius_m ^ 2
  let outer_core_temp_c : ℚ := 4300
  let delta_t := s.temperature_c - outer_core_temp_c
  let k : ℚ := 1e6
  { s with heat_flux_mw_per_m2 := k * delta_t / area_m2 * 1e-6 }

/-- `InnerCore::update_crystallization(years)`: advances age, grows radius by
crystallization_rate · years / 1_000_000, recomputes mass and heat flux,
updates latent heat release. -/
def InnerCore.update_crystallization (s : InnerCore) (years : ℚ) : InnerCore :=
  let s := { s with age_myr := s.age_myr + years / 1000000 }
  let growth_km := s.crystallization_rate_mm_per_year * years / 1000000
  let s := { s with radius_km := s.radius_km + growth_km }
  let s := s.update_mass
  let s := s.update_heat_flux
  { s with latent_heat_release_tj_per_year := s.crystallization_rate_mm_per_year * 50 }

/-- A sequence of `update_crystallization` calls, applied in order. -/
def InnerCore.runUpdates (s : InnerCore) (years_list : List ℚ) : InnerCore :=
  years_list.foldl InnerCore.update_crystallization s

/-- The mass value `update_mass` assigns for a given radius (km). -/
def massOfRadius (radius_km : ℚ) : ℚ :=
  (4 / 3) * ratPI * (radius_km * 1000) ^ 3 * 12800

/-- State of `LowerMantle` (src/earth/mantle.rs). -/
structure LowerMantle where
  thickness_km : ℚ
  temperature_c : ℚ
  viscosity : ℚ
  deep_convection_strength : ℚ
  heat_flux_in : ℚ
  heat_flux_out : ℚ
  composition : String
  stored_slab_volume_km3 : ℚ
  lateral_flow_rate_cm_per_year : ℚ
  dominant_flow_direction_deg : ℚ
deriving DecidableEq

/-- `LowerMantle::mix_composition`: accumulates slab volume and increases
deep_convection_strength by 0.01, capped at 1. -/
def LowerMantle.mix_composition (lm : LowerMantle) (slab_input_km3 : ℚ) : LowerMantle :=
  let s := lm.deep_convection_strength + 0.01
  { lm with stored_slab_volume_km3 := lm.stored_slab_volume_km3 + slab_input_km3,
            deep_convection_strength := if 1 < s then 1 else s }

/-- `LowerMantle::update_lateral_flow`: rate = min(strength·5, 10);
direction rotates by strength·3 mod 360. -/
def LowerMantle.update_lateral_flow (lm : LowerMantle) : LowerMantle :=
  { lm with
    lateral_flow_rate_cm_per_year := min (lm.deep_convection_strength * 5) 10,
    dominant_flow_direction_deg :=
      rustRem (lm.dominant_flow_direction_deg + lm.deep_convection_strength * 3) 360 }

/-- State of `Asthenosphere` (src/earth/mantle.rs).  The source field
partial_melt_pct is embedded as melt_pct. -/
structure Asthenosphere where
  thickness_km : ℚ
  temperature_c : ℚ
  viscosity : ℚ
  melt_pct : ℚ
  lubrication_factor : ℚ
  heat_flux_in : ℚ
  heat_flux_out : ℚ
  composition : String
  volatile_content_pct : ℚ
  lateral_flow_rate_cm_per_year : ℚ
  dominant_flow_direction_deg : ℚ
deriving DecidableEq

/-- `Asthenosphere::update_lateral_flow(core_influence)`: rate =
min(core_influence·10, 20); direction rotates by core_influence·5 mod 360. -/
def Asthenosphere.update_lateral_flow (a : Asthenosphere) (core_influence : ℚ) : Asthenosphere :=
  { a with
    lateral_flow_rate_cm_per_year := min (core_influence * 10) 20,
    dominant_flow_direction_deg :=
      rustRem (a.dominant_flow_direction_deg + core_influence * 5) 360 }

/-- State of `Plate` (src/earth/mantle.rs). -/
structure Plate where
  area_km2 : ℚ
  age_myr : ℚ
  velocity_cm_per_year : ℚ
  motion_direction_deg : ℚ
  is_subducting : Bool
  is_transform_boundary : Bool
  shear_stress_mpa : ℚ
  has_back_arc_spreading : Bool
  back_arc_spreading_rate_cm_per_year : ℚ
  volcanic_activity_factor : ℚ
deriving DecidableEq

/-- `Plate::spread`: grows area by growth_rate_km2 and resets age to 0,
returning the growth. -/
def Plate.spread (p : Plate) (growth_rate_km2 : ℚ) : Plate × ℚ :=
  ({ p with area_km2 := p.area_km2 + growth_rate_km2, age_myr := 0 },
   growth_rate_km2)

/-- `Plate::simulate_transform`: on transform-boundary plates accumulates 5 MPa
of shear stress per call; above 300 the stress resets to 0 and a slip event is
reported. -/
def Plate.simulate_transform (p : Plate) : Plate × Bool :=
  if p.is_transform_boundary then
    let s := p.shear_stress_mpa + 5
    if 300 < s then ({ p with shear_stress_mpa := 0 }, true)
    else ({ p with shear_stress_mpa := s }, false)
  else (p, false)

/-- `Plate::simulate_back_arc_spreading`: when the back-arc flag is set, grows
area by rate · 1000 and returns the added area. -/
def Plate.simulate_back_arc_spreading (p : Plate) : Plate × ℚ :=
  if p.has_back_arc_spreading then
    let added_area := p.back_arc_spreading_rate_cm_per_year * 1000
    ({ p with area_km2 := p.area_km2 + added_area }, added_area)
  else (p, 0)

/-- `Plate::update_motion(mantle_flow_rate, mantle_direction)`: blends velocity,
rotates direction mod 360, ages by 0.1, triggers the one-shot subduction flag
when age exceeds 100, spreads when age is below 20, then evaluates
transform-fault stress and back-arc spreading.  Returns the updated plate with
the source's (started_subduction, spread_area, back_arc_area,
earthquake_occurred) tuple. -/
def Plate.update_motion (p : Plate) (mantle_flow_rate mantle_direction : ℚ) :
    Plate × Bool × ℚ × ℚ × Bool :=
  let p0 := { p with
    velocity_cm_per_year := mantle_flow_rate + p.velocity_cm_per_year * 0.1,
    motion_direction_deg := rustRem (p.motion_direction_deg + mantle_direction * 0.05) 360,
    age_myr := p.age_myr + 0.1 }
  let trigger := 100 < p0.age_myr ∧ p0.is_subducting = false
  let p1 := if 100 < p0.age_myr ∧ p0.is_subducting = false then
              { p0 with is_subducting := true } else p0
  let started_subduction : Bool := decide trigger
  let sp := if p1.age_myr < 20 then p1.spread 10000 else (p1, 0)
  let tr := sp.1.simulate_transform
  let ba := tr.1.simulate_back_arc_spreading
  (ba.1, started_subduction, sp.2, ba.2, tr.2)

/-- `Plate::subduct(mantle)`: when subducting, recycles 1% of the area into the
lower mantle and shrinks the area by 1%; otherwise a no-op returning 0. -/
def Plate.subduct (p : Plate) (mantle : LowerMantle) : Plate × LowerMantle × ℚ :=
  if p.is_subducting then
    let recycled_volume := p.area_km2 * 0.01
    let mantle := mantle.mix_composition recycled_volume
    ({ p with area_km2 := p.area_km2 * 0.99 }, mantle, recycled_volume)
  else (p, mantle, 0)

/-- One operation on a plate (paired with the lower mantle it subducts into). -/
inductive PlateOp where
  | motionOp (mantle_flow_rate mantle_direction : ℚ)
  | subductOp
  | spreadOp (growth_rate_km2 : ℚ)
  | transformOp
  | backArcOp
deriving DecidableEq

/-- Apply one plate operation to a (plate, lower mantle) pair. -/
def applyPlateOp (s : Plate × LowerMantle) : PlateOp → Plate × LowerMantle
  | .motionOp r d => ((s.1.update_motion r d).1, s.2)
  | .subductOp => let t := s.1.subduct s.2; (t.1, t.2.1)
  | .spreadOp g => ((s.1.spread g).1, s.2)
  | .transformOp => ((s.1.simulate_transform).1, s.2)
  | .backArcOp => ((s.1.simulate_back_arc_spreading).1, s.2)

/-- Apply a sequence of plate operations in order. -/
def applyPlateOps (s : Plate × LowerMantle) (ops : List PlateOp) : Plate × LowerMantle :=
  ops.foldl applyPlateOp s

/-- Computable rational stand-in for the f32 sine intrinsic (degree-5 Taylor
polynomial).  It agrees exactly with IEEE sine at argument 0 — the only point
at which any claim below depends on its value. -/
def sinApprox (x : ℚ) : ℚ := x - x ^ 3 / 6 + x ^ 5 / 120

/-- Computable rational stand-in for the f32 cosine intrinsic (degree-4 Taylor
polynomial).  It agrees exactly with IEEE cosine at argument 0 — the only point
at which any claim below depends on its value. -/
def cosApprox (x : ℚ) : ℚ := 1 - x ^ 2 / 2 + x ^ 4 / 24

/-- f32 `to_radians`: multiply by PI / 180. -/
def toRadians (deg : ℚ) : ℚ := deg * (ratPI / 180)

/-- State of `HotSpot` (src/earth/mantle.rs). -/
structure HotSpot where
  lat_deg : ℚ
  lon_deg : ℚ
  surface_age_myr : ℚ
deriving DecidableEq

/-- `HotSpot::migrate(mantle_flow_rate, flow_direction_deg)`: moves by
(flow_rate / 10)·(sin, cos) of the direction in radians; clamps latitude into
[-90, 90] by two conditionals; adjusts longitude by a single ±360 wrap;
advances surface age by 0.1. -/
def HotSpot.migrate (h : HotSpot) (mantle_flow_rate flow_direction_deg : ℚ) : HotSpot :=
  let rad := toRadians flow_direction_deg
  let lat := h.lat_deg + mantle_flow_rate / 10 * sinApprox rad
  let lon := h.lon_deg + mantle_flow_rate / 10 * cosApprox rad
  let lat := if 90 < lat then 90 else lat
  let lat := if lat < -90 then -90 else lat
  let lon := if 180 < lon then lon - 360 else lon
  let lon := if lon < -180 then lon + 360 else lon
  { lat_deg := lat, lon_deg := lon, surface_age_myr := h.surface_age_myr + 0.1 }

/-- State of `Lithosphere` (src/earth/mantle.rs); no per-step behavior. -/
structure Lithosphere where
  thickness_km : ℚ
  temperature_c : ℚ
  viscosity : ℚ
  rigidity_factor : ℚ
  heat_flux_in : ℚ
  heat_flux_out : ℚ
  composition : String
  tectonic_stress_mpa : ℚ
deriving DecidableEq

/-- State of `TransitionZone` (src/earth/mantle.rs); no per-step behavior. -/
structure TransitionZone where
  thickness_km : ℚ
  temperature_c : ℚ
  viscosity : ℚ
  phase_change_depth_km : ℚ
  heat_flux_in : ℚ
  heat_flux_out : ℚ
  composition : String
  water_storage_capacity : ℚ
deriving DecidableEq

/-- State of `DPrimePrimeLayer` (src/earth/mantle.rs). -/
structure DPrimePrimeLayer where
  thickness_km : ℚ
  temperature_c : ℚ
  viscosity : ℚ
  plume_generation_potential : ℚ
  hot_spot_count : ℕ
  heat_flux_in : ℚ
  heat_flux_out : ℚ
  composition : String
  chemical_heterogeneity_factor : ℚ
  temporal_variability : ℚ
deriving DecidableEq

/-- State of `Mantle` (src/earth/mantle.rs): the five layers, the plate and
hot-spot collections, and the owned crust. -/
structure Mantle where
  lithosphere : Lithosphere
  asthenosphere : Asthenosphere
  transition_zone : TransitionZone
  lower_mantle : LowerMantle
  d_prime_prime : DPrimePrimeLayer
  plates : List Plate
  hot_spots : List HotSpot
  crust : Crust
deriving DecidableEq

/-- The reporting-only aggregates `update_advanced_dynamics` accumulates for
console output (they never feed back into simulation state). -/
structure StepTotals where
  total_volcanic_growth : ℚ
  total_tectonic_deformation : ℚ
  total_subduction_volume : ℚ
  total_spread_area : ℚ
  total_back_arc_area : ℚ
  subduction_events : ℕ
  earthquake_events : ℕ
deriving DecidableEq

/-- All aggregates start at zero. -/
def StepTotals.init : StepTotals :=
  ⟨0, 0, 0, 0, 0, 0, 0⟩

/-- The plate loop of `Mantle::update_advanced_dynamics`, translated directly
from the source: for each plate in stored order, update_motion with the
asthenosphere flow values, subduct into the lower mantle, conditionally grow
the crust by volcanism (magma supply 500 when volcanic_activity_factor > 0.5),
then accumulate crust tectonic deformation from the plate's velocity;
aggregates are tracked alongside. -/
def processPlates (asth_rate asth_dir : ℚ) :
    List Plate → LowerMantle → Crust → StepTotals →
    List Plate × LowerMantle × Crust × StepTotals
  | [], lm, c, t => ([], lm, c, t)
  | p :: rest, lm, c, t =>
    let mo := p.update_motion asth_rate asth_dir
    let p1 := mo.1
    let started_subduction := mo.2.1
    let spread_area := mo.2.2.1
    let back_arc_area := mo.2.2.2.1
    let earthquake_occurred := mo.2.2.2.2
    let sd := p1.subduct lm
    let p2 := sd.1
    let lm1 := sd.2.1
    let subduction_volume := sd.2.2
    let t1 := { t with
      subduction_events := t.subduction_events + (if started_subduction then 1 else 0),
      earthquake_events := t.earthquake_events + (if earthquake_occurred then 1 else 0),
      total_subduction_volume := t.total_subduction_volume + subduction_volume,
      total_spread_area := t.total_spread_area + spread_area,
      total_back_arc_area := t.total_back_arc_area + back_arc_area }
    let cg := if 0.5 < p2.volcanic_activity_factor then c.grow_by_volcanism 500 else (c, 0)
    let c1 := cg.1
    let t2 := { t1 with total_volcanic_growth := t1.total_volcanic_growth + cg.2 }
    let td := c1.update_tectonics p2.velocity_cm_per_year
    let c2 := td.1
    let t3 := { t2 with total_tectonic_deformation := t2.total_tectonic_deformation + td.2 }
    let r := processPlates asth_rate asth_dir rest lm1 c2 t3
    (p2 :: r.1, r.2.1, r.2.2.1, r.2.2.2)

/-- `Mantle::update_advanced_dynamics(years)`, translated directly from the
source: lower-mantle flow, asthenosphere flow driven by
deep_convection_strength, the plate loop, a single crust erosion with the
elapsed years, then hot-spot migration with the asthenosphere flow values.
The println-gating aggregates are computed and discarded. -/
def Mantle.update_advanced_dynamics (m : Mantle) (years : ℚ) : Mantle :=
  let lm := m.lower_mantle.update_lateral_flow
  let asth := m.asthenosphere.update_lateral_flow lm.deep_convection_strength
  let pl := processPlates asth.lateral_flow_rate_cm_per_year
              asth.dominant_flow_direction_deg m.plates lm m.crust StepTotals.init
  let er := pl.2.2.1.erode years
  let hs := m.hot_spots.map fun h =>
    h.migrate asth.lateral_flow_rate_cm_per_year asth.dominant_flow_direction_deg
  { m with lower_mantle := pl.2.1, asthenosphere := asth, plates := pl.1,
           hot_spots := hs, crust := er.1 }

/-- Per-plate phase as the spec words it: update_motion using the
asthenosphere's flow rate/direction; subduct into the lower mantle; if
volcanic_activity_factor exceeds the threshold, trigger crust volcanic growth
with the fixed magma-supply constant; accumulate crust tectonic deformation
from the plate's velocity.  Aggregation is a reporting concern and is omitted
here. -/
def specPlatePhase (asth_rate asth_dir : ℚ) (p : Plate) (lm : LowerMantle)
    (c : Crust) : Plate × LowerMantle × Crust :=
  let p1 := (p.update_motion asth_rate asth_dir).1
  let sd := p1.subduct lm
  let p2 := sd.1
  let lm1 := sd.2.1
  let c1 := if 0.5 < p2.volcanic_activity_factor then (c.grow_by_volcanism 500).1 else c
  let c2 := (c1.update_tectonics p2.velocity_cm_per_year).1
  (p2, lm1, c2)

/-- The spec's plate loop: each plate in stored order, no reordering, threading
the lower mantle and the crust through the per-plate phase. -/
def specProcessPlates (asth_rate asth_dir : ℚ) :
    List Plate → LowerMantle → Crust → List Plate × LowerMantle × Crust
  | [], lm, c => ([], lm, c)
  | p :: rest, lm, c =>
    let s := specPlatePhase asth_rate asth_dir p lm c
    let r := specProcessPlates asth_rate asth_dir rest s.2.1 s.2.2
    (s.1 :: r.1, r.2.1, r.2.2)

/-- One mantle step as the spec words it (§4.7 steps 3–6): lower-mantle lateral
flow; asthenosphere lateral flow driven by the lower mantle's
deep_convection_strength; the per-plate phase over the stored plate order;
exactly one crust erosion with the elapsed years after all plates are
processed; then every hot spot migrates using the asthenosphere's flow rate
and direction. -/
def Mantle.specStep (m : Mantle) (years : ℚ) : Mantle :=
  let lm := m.lower_mantle.update_lateral_flow
  let asth := m.asthenosphere.update_lateral_flow lm.deep_convection_strength
  let pl := specProcessPlates asth.lateral_flow_rate_cm_per_year
              asth.dominant_flow_direction_deg m.plates lm m.crust
  let crust1 := (pl.2.2.erode years).1
  let hs := m.hot_spots.map fun h =>
    h.migrate asth.lateral_flow_rate_cm_per_year asth.dominant_flow_direction_deg
  { m with lower_mantle := pl.2.1, asthenosphere := asth, plates := pl.1,
           hot_spots := hs, crust := crust1 }

/-- The state components of the translated plate loop agree with the spec's
plate loop; the translated loop merely also carries the reporting aggregates. -/
theorem processPlates_eq_spec (asth_rate asth_dir : ℚ) :
    ∀ (ps : List Plate) (lm : LowerMantle) (c : Crust) (t : StepTotals),
      (processPlates asth_rate asth_dir ps lm c t).1 =
        (specProcessPlates asth_rate asth_dir ps lm c).1 ∧
      (processPlates asth_rate asth_dir ps lm c t).2.1 =
        (specProcessPlates asth_rate asth_dir ps lm c).2.1 ∧
      (processPlates asth_rate asth_dir ps lm c t).2.2.1 =
        (specProcessPlates asth_rate asth_dir ps lm c).2.2 := by
  intro ps
  induction ps with
  | nil => intro lm c t; simp [processPlates, specProcessPlates]
  | cons p rest ih =>
    intro lm c t
    simp only [processPlates, specProcessPlates, specPlatePhase]
    constructor
    · simp only [apply_ite (f := Prod.fst)]
      exact congrArg _ (ih _ _ _).1
    · constructor
      · simp only [apply_ite (f := Prod.fst)]
        exact (ih _ _ _).2.1
      · simp only [apply_ite (f := Prod.fst)]
        exact (ih _ _ _).2.2

/-- None of the three thickness-mutating crust operations changes the erosion
rate. -/
theorem applyCrustOp_erosion_rate (c : Crust) (op : CrustOp) :
    (applyCrustOp c op).erosion_rate_mm_per_yr = c.erosion_rate_mm_per_yr := by
  cases op <;> rfl

/-- None of the three thickness-mutating crust operations changes the tectonic
activity factor. -/
theorem applyCrustOp_tectonic_factor (c : Crust) (op : CrustOp) :
    (applyCrustOp c op).tectonic_activity_factor = c.tectonic_activity_factor := by
  cases op <;> rfl

/-- Each crust operation with a non-negative argument keeps the thickness at or
above the 5 km floor (for erode the floor itself guarantees this). -/
theorem applyCrustOp_lower (c : Crust) (op : CrustOp) (hop : op.nonneg)
    (ht : 0 ≤ c.tectonic_activity_factor) (h5 : 5 ≤ c.thickness_km) :
    5 ≤ (applyCrustOp c op).thickness_km := by
  cases op with
  | erodeOp y =>
    simp only [applyCrustOp, Crust.erode]
    split_ifs with h
    · norm_num
    · linarith [not_lt.mp h]
  | growOp m =>
    simp only [applyCrustOp, Crust.grow_by_volcanism]
    simp only [CrustOp.nonneg] at hop
    have hm : 0 ≤ m / 1000000 := div_nonneg hop (by norm_num)
    linarith
  | tectOp v =>
    simp only [applyCrustOp, Crust.update_tectonics]
    simp only [CrustOp.nonneg] at hop
    split_ifs with h
    · norm_num
    · have hd : 0 ≤ v / 100 * c.tectonic_activity_factor :=
        mul_nonneg (div_nonneg hop (by norm_num)) ht
      linarith

/-- Each erode or update_tectonics call with a non-negative argument keeps the
thickness at or below the 70 km ceiling. -/
theorem applyCrustOp_upper (c : Crust) (op : CrustOp) (hop : op.nonneg)
    (hng : ¬ op.isGrow) (hr : 0 ≤ c.erosion_rate_mm_per_yr)
    (h70 : c.thickness_km ≤ 70) :
    (applyCrustOp c op).thickness_km ≤ 70 := by
  cases op with
  | erodeOp y =>
    simp only [applyCrustOp, Crust.erode]
    simp only [CrustOp.nonneg] at hop
    split_ifs with h
    · norm_num
    · have he : 0 ≤ c.erosion_rate_mm_per_yr * y / 1000000 :=
        div_nonneg (mul_nonneg hr hop) (by norm_num)
      linarith
  | growOp m => exact absurd trivial hng
  | tectOp v =>
    simp only [applyCrustOp, Crust.update_tectonics]
    split_ifs with h
    · norm_num
    · exact not_lt.mp h

/-- Thickness stays at or above 5 across any sequence of the three operations
with non-negative arguments, from any crust with non-negative tectonic factor
and thickness at least 5. -/
theorem applyCrustOps_lower :
    ∀ (ops : List CrustOp) (c : Crust), (∀ op ∈ ops, op.nonneg) →
      0 ≤ c.tectonic_activity_factor → 5 ≤ c.thickness_km →
      5 ≤ (applyCrustOps c ops).thickness_km := by
  intro ops
  induction ops with
  | nil => intro c _ _ h5; simpa [applyCrustOps] using h5
  | cons op rest ih =>
    intro c hops ht h5
    have hstep : applyCrustOps c (op :: rest) = applyCrustOps (applyCrustOp c op) rest := rfl
    rw [hstep]
    refine ih (applyCrustOp c op) (fun o ho => hops o (List.mem_cons_of_mem _ ho)) ?_ ?_
    · rw [applyCrustOp_tectonic_factor]; exact ht
    · exact applyCrustOp_lower c op (hops op (List.mem_cons_self op rest)) ht h5

/-- Thickness stays at or below 70 across any sequence of erode and
update_tectonics calls with non-negative arguments, from any crust with
non-negative erosion rate and thickness at most 70. -/
theorem applyCrustOps_upper :
    ∀ (ops : List CrustOp) (c : Crust), (∀ op ∈ ops, op.nonneg) →
      (∀ op ∈ ops, ¬ op.isGrow) → 0 ≤ c.erosion_rate_mm_per_yr →
      c.thickness_km ≤ 70 → (applyCrustOps c ops).thickness_km ≤ 70 := by
  intro ops
  induction ops with
  | nil => intro c _ _ _ h70; simpa [applyCrustOps] using h70
  | cons op rest ih =>
    intro c hops hng hr h70
    have hstep : applyCrustOps c (op :: rest) = applyCrustOps (applyCrustOp c op) rest := rfl
    rw [hstep]
    refine ih (applyCrustOp c op) (fun o ho => hops o (List.mem_cons_of_mem _ ho))
      (fun o ho => hng o (List.mem_cons_of_mem _ ho)) ?_ ?_
    · rw [applyCrustOp_erosion_rate]; exact hr
    · exact applyCrustOp_upper c op (hops op (List.mem_cons_self op rest))
        (hng op (List.mem_cons_self op rest)) hr h70

/-- C1 counterexample: the claim fails as stated.  From `Crust::new
("continental")`, a single `grow_by_volcanism` call with the non-negative
argument 100_000_000 leaves thickness_km = 135, outside [5, 70]: the source
puts no upper clamp on `grow_by_volcanism`. -/
theorem crust_thickness_counterexample :
    (0 : ℚ) ≤ 100000000 ∧
    (applyCrustOps continentalCrust [CrustOp.growOp 100000000]).thickness_km = 135 ∧
    ¬ (applyCrustOps continentalCrust [CrustOp.growOp 100000000]).thickness_km ≤ 70 := by
  refine ⟨by norm_num, ?_, ?_⟩ <;>
    norm_num [applyCrustOps, applyCrustOp, Crust.grow_by_volcanism, continentalCrust]

/-- C1 (amended): for every Crust constructed via `Crust::new("continental")`
or `Crust::new("oceanic")` and every finite sequence of erode,
grow_by_volcanism and update_tectonics calls with non-negative arguments, the
thickness stays at or above 5 after every call; if the sequence contains no
grow_by_volcanism call the thickness also stays at or below 70 after every
call.  (grow_by_volcanism has no upper clamp, so it can push the thickness
above 70.) -/
theorem crust_thickness_amended (c : Crust)
    (hc : c = continentalCrust ∨ c = oceanicCrust)
    (ops : List CrustOp) (hops : ∀ op ∈ ops, op.nonneg) :
    5 ≤ (applyCrustOps c ops).thickness_km ∧
      ((∀ op ∈ ops, ¬ op.isGrow) → (applyCrustOps c ops).thickness_km ≤ 70) := by
  obtain rfl | rfl := hc
  · exact ⟨applyCrustOps_lower ops continentalCrust hops (by norm_num [continentalCrust])
      (by norm_num [continentalCrust]),
    fun hng => applyCrustOps_upper ops continentalCrust hops hng
      (by norm_num [continentalCrust]) (by norm_num [continentalCrust])⟩
  · exact ⟨applyCrustOps_lower ops oceanicCrust hops (by norm_num [oceanicCrust])
      (by norm_num [oceanicCrust]),
    fun hng => applyCrustOps_upper ops oceanicCrust hops hng
      (by norm_num [oceanicCrust]) (by norm_num [oceanicCrust])⟩

/-- C1 witness: the amended theorem at a concrete input — a continental crust
run through one erode and one update_tectonics call with non-negative
arguments. -/
theorem crust_thickness_amended_witness :
    5 ≤ (applyCrustOps continentalCrust
          [CrustOp.erodeOp 1000000, CrustOp.tectOp 100]).thickness_km ∧
      ((∀ op ∈ [CrustOp.erodeOp 1000000, CrustOp.tectOp 100], ¬ op.isGrow) →
        (applyCrustOps continentalCrust
          [CrustOp.erodeOp 1000000, CrustOp.tectOp 100]).thickness_km ≤ 70) :=
  crust_thickness_amended continentalCrust (Or.inl rfl)
    [CrustOp.erodeOp 1000000, CrustOp.tectOp 100] (by norm_num [CrustOp.nonneg])

/-- C2 counterexample: the claim fails as stated.  `Crust::new("invalid")`
hits `panic!` — a process-terminating abort with the panic message — rather
than returning a distinguishable, recoverable InvalidCrustType construction
error; no error type exists in the source. -/
theorem crust_new_invalid_counterexample :
    Crust.new "invalid" =
      RustOutcome.panicked "Invalid crust type! Use \x27continental\x27 or \x27oceanic\x27." := by
  rfl

/-- C2 (amended): `Crust::new` with any type string other than "continental"
or "oceanic" panics (process-terminating) with the message "Invalid crust
type! Use 'continental' or 'oceanic'." and constructs no Crust object. -/
theorem crust_new_invalid_amended (s : String)
    (h1 : s ≠ "continental") (h2 : s ≠ "oceanic") :
    Crust.new s =
      RustOutcome.panicked "Invalid crust type! Use \x27continental\x27 or \x27oceanic\x27." := by
  unfold Crust.new
  split
  · contradiction
  · contradiction
  · rfl

/-- C2 witness: the amended theorem at the concrete input "basalt". -/
theorem crust_new_invalid_amended_witness :
    Crust.new "basalt" =
      RustOutcome.panicked "Invalid crust type! Use \x27continental\x27 or \x27oceanic\x27." :=
  crust_new_invalid_amended "basalt" (by decide) (by decide)

/-- `update_crystallization` leaves the crystallization rate unchanged. -/
theorem update_crystallization_rate (s : InnerCore) (y : ℚ) :
    (s.update_crystallization y).crystallization_rate_mm_per_year =
      s.crystallization_rate_mm_per_year := rfl

/-- `update_crystallization` grows the radius by rate · years / 1_000_000. -/
theorem update_crystallization_radius (s : InnerCore) (y : ℚ) :
    (s.update_crystallization y).radius_km =
      s.radius_km + s.crystallization_rate_mm_per_year * y / 1000000 := rfl

/-- After `update_crystallization`, the mass field equals the sphere-mass
formula applied to the current radius. -/
theorem update_crystallization_mass (s : InnerCore) (y : ℚ) :
    (s.update_crystallization y).mass_kg =
      massOfRadius (s.update_crystallization y).radius_km := rfl

/-- `runUpdates` leaves the crystallization rate unchanged. -/
theorem runUpdates_rate :
    ∀ (ys : List ℚ) (s : InnerCore),
      (s.runUpdates ys).crystallization_rate_mm_per_year =
        s.crystallization_rate_mm_per_year := by
  intro ys
  induction ys with
  | nil => intro s; rfl
  | cons y rest ih =>
    intro s
    have hstep : s.runUpdates (y :: rest) =
        (s.update_crystallization y).runUpdates rest := rfl
    rw [hstep, ih, update_crystallization_rate]

/-- The radius is non-decreasing across any sequence of
`update_crystallization` calls with non-negative years, given a non-negative
crystallization rate. -/
theorem runUpdates_radius_mono :
    ∀ (ys : List ℚ) (s : InnerCore),
      0 ≤ s.crystallization_rate_mm_per_year → (∀ z ∈ ys, 0 ≤ z) →
      s.radius_km ≤ (s.runUpdates ys).radius_km := by
  intro ys
  induction ys with
  | nil => intro s _ _; exact le_refl _
  | cons y rest ih =>
    intro s hrate hys
    have hstep : s.runUpdates (y :: rest) =
        (s.update_crystallization y).runUpdates rest := rfl
    rw [hstep]
    have h1 : s.radius_km ≤ (s.update_crystallization y).radius_km := by
      rw [update_crystallization_radius]
      have : 0 ≤ s.crystallization_rate_mm_per_year * y / 1000000 :=
        div_nonneg (mul_nonneg hrate (hys y (List.mem_cons_self y rest))) (by norm_num)
      linarith
    have h2 := ih (s.update_crystallization y)
      (by rw [update_crystallization_rate]; exact hrate)
      (fun z hz => hys z (List.mem_cons_of_mem _ hz))
    exact h1.trans h2

/-- Every state reached by at least one `update_crystallization` call has its
mass field equal to the sphere-mass formula of its radius. -/
theorem runUpdates_mass_formula :
    ∀ (ys : List ℚ) (s : InnerCore) (y : ℚ),
      ((s.update_crystallization y).runUpdates ys).mass_kg =
        massOfRadius ((s.update_crystallization y).runUpdates ys).radius_km := by
  intro ys
  induction ys with
  | nil => intro s y; exact update_crystallization_mass s y
  | cons z rest ih =>
    intro s y
    have hstep : (s.update_crystallization y).runUpdates (z :: rest) =
        ((s.update_crystallization y).update_crystallization z).runUpdates rest := rfl
    rw [hstep]
    exact ih (s.update_crystallization y) z

/-- The sphere-mass formula is monotone in the radius. -/
theorem massOfRadius_mono (a b : ℚ) (hab : a ≤ b) :
    massOfRadius a ≤ massOfRadius b := by
  unfold massOfRadius ratPI
  have h1000 : a * 1000 ≤ b * 1000 := by linarith
  have h3 : (a * 1000) ^ 3 ≤ (b * 1000) ^ 3 := by
    nlinarith [sq_nonneg (a * 1000 + b * 1000), sq_nonneg (a * 1000 - b * 1000)]
  nlinarith [h3]

/-- C3: for every InnerCore state with non-negative crystallization rate and
every finite sequence of `update_crystallization` calls with non-negative
years, the mass field observed after each call is non-decreasing: the mass
after the first call is at most the mass after any further calls.  (Since the
starting state is universally quantified, this covers every pair of
observation points along a call sequence.) -/
theorem inner_core_mass_monotone (s : InnerCore)
    (hrate : 0 ≤ s.crystallization_rate_mm_per_year)
    (y : ℚ) (hy : 0 ≤ y) (ys : List ℚ) (hys : ∀ z ∈ ys, 0 ≤ z) :
    (s.update_crystallization y).mass_kg ≤
      ((s.update_crystallization y).runUpdates ys).mass_kg := by
  rw [update_crystallization_mass, runUpdates_mass_formula]
  exact massOfRadius_mono _ _
    (runUpdates_radius_mono ys (s.update_crystallization y)
      (by rw [update_crystallization_rate]; exact hrate) hys)

/-- C3 witness: the monotonicity theorem at `InnerCore::new()` with a first
call of 1_000_000 years followed by one of 2_000_000 years. -/
theorem inner_core_mass_monotone_witness :
    (0 ≤ InnerCore.new.crystallization_rate_mm_per_year) ∧
    (InnerCore.new.update_crystallization 1000000).mass_kg ≤
      ((InnerCore.new.update_crystallization 1000000).runUpdates [2000000]).mass_kg :=
  ⟨by norm_num [InnerCore.new],
   inner_core_mass_monotone InnerCore.new (by norm_num [InnerCore.new])
     1000000 (by norm_num) [2000000] (by norm_num)⟩

/-- C4: from `InnerCore::new()` (radius 1221, crystallization rate 1 mm/yr),
one `update_crystallization(10_000_000)` call grows the radius by exactly
10 km, from 1221 to 1231, and recomputes the mass as
(4/3)·π·(1_231_000 m)³·12_800 kg/m³ (π being the source's f32 constant). -/
theorem inner_core_scenario :
    InnerCore.new.radius_km = 1221 ∧
    (InnerCore.new.update_crystallization 10000000).radius_km = 1231 ∧
    (InnerCore.new.update_crystallization 10000000).mass_kg =
      4 / 3 * ratPI * 1231000 ^ 3 * 12800 := by
  refine ⟨by norm_num [InnerCore.new], ?_, ?_⟩
  · rw [update_crystallization_radius]
    norm_num [InnerCore.new]
  · rw [update_crystallization_mass, update_crystallization_radius]
    norm_num [InnerCore.new, massOfRadius]

/-- C5: from `Crust::new("continental")` (thickness 35, erosion rate
0.1 mm/yr), one `erode(1_000_000)` call returns an erosion of 0.1 km and
leaves the thickness at 34.9 km, above the 5 km floor. -/
theorem crust_erode_scenario :
    (continentalCrust.erode 1000000).2 = 0.1 ∧
    (continentalCrust.erode 1000000).1.thickness_km = 34.9 ∧
    5 < (continentalCrust.erode 1000000).1.thickness_km := by
  refine ⟨?_, ?_, ?_⟩ <;> norm_num [Crust.erode, continentalCrust]

/-- C6: for every crust state with vegetation coverage in [0, 100] and every
input delta of any magnitude or sign, `update_vegetation` leaves the
vegetation coverage within [0, 100]. -/
theorem vegetation_clamped (c : Crust) (change_pct : ℚ)
    (h0 : 0 ≤ c.vegetation_coverage_pct) (h100 : c.vegetation_coverage_pct ≤ 100) :
    0 ≤ (c.update_vegetation change_pct).vegetation_coverage_pct ∧
      (c.update_vegetation change_pct).vegetation_coverage_pct ≤ 100 := by
  simp only [Crust.update_vegetation]
  split_ifs <;> constructor <;> linarith

/-- C6 witness: the clamping theorem on the continental crust (coverage 50)
with the out-of-range delta 200. -/
theorem vegetation_clamped_witness :
    (0 ≤ continentalCrust.vegetation_coverage_pct ∧
      continentalCrust.vegetation_coverage_pct ≤ 100) ∧
    (0 ≤ (continentalCrust.update_vegetation 200).vegetation_coverage_pct ∧
      (continentalCrust.update_vegetation 200).vegetation_coverage_pct ≤ 100) :=
  ⟨by norm_num [continentalCrust],
   vegetation_clamped continentalCrust 200 (by norm_num [continentalCrust])
     (by norm_num [continentalCrust])⟩

/-- `Plate::spread` does not change the subducting flag. -/
theorem spread_flag (p : Plate) (g : ℚ) :
    ((p.spread g).1).is_subducting = p.is_subducting := rfl

/-- `Plate::simulate_transform` does not change the subducting flag. -/
theorem simulate_transform_flag (p : Plate) :
    ((p.simulate_transform).1).is_subducting = p.is_subducting := by
  simp only [Plate.simulate_transform]
  split_ifs <;> rfl

/-- `Plate::simulate_back_arc_spreading` does not change the subducting flag. -/
theorem simulate_back_arc_flag (p : Plate) :
    ((p.simulate_back_arc_spreading).1).is_subducting = p.is_subducting := by
  simp only [Plate.simulate_back_arc_spreading]
  split_ifs <;> rfl

/-- `Plate::subduct` does not change the subducting flag. -/
theorem subduct_flag (p : Plate) (lm : LowerMantle) :
    ((p.subduct lm).1).is_subducting = p.is_subducting := by
  simp only [Plate.subduct]
  split_ifs <;> rfl

/-- After `Plate::update_motion`, the subducting flag is the old flag or-ed
with the age-threshold trigger: it never transitions from true to false. -/
theorem update_motion_flag (p : Plate) (r d : ℚ) :
    ((p.update_motion r d).1).is_subducting =
      (p.is_subducting || decide (100 < p.age_myr + 0.1)) := by
  unfold Plate.update_motion
  simp only [simulate_back_arc_flag, simulate_transform_flag]
  split_ifs with h1 h2 <;>
    simp_all [spread_flag]

/-- If `update_motion` reports that it started subduction, the returned plate
has the subducting flag set. -/
theorem update_motion_started (p : Plate) (r d : ℚ)
    (h : (p.update_motion r d).2.1 = true) :
    ((p.update_motion r d).1).is_subducting = true := by
  rw [update_motion_flag]
  unfold Plate.update_motion at h
  simp only [decide_eq_true_eq] at h
  simp [h.1]

/-- Every plate operation preserves a set subducting flag. -/
theorem applyPlateOp_flag (s : Plate × LowerMantle) (op : PlateOp)
    (h : s.1.is_subducting = true) :
    ((applyPlateOp s op).1).is_subducting = true := by
  cases op with
  | motionOp r d => simp [applyPlateOp, update_motion_flag, h]
  | subductOp => simp [applyPlateOp, subduct_flag, h]
  | spreadOp g => simp [applyPlateOp, spread_flag, h]
  | transformOp => simp [applyPlateOp, simulate_transform_flag, h]
  | backArcOp => simp [applyPlateOp, simulate_back_arc_flag, h]

/-- A set subducting flag survives any sequence of plate operations. -/
theorem applyPlateOps_flag :
    ∀ (ops : List PlateOp) (s : Plate × LowerMantle),
      s.1.is_subducting = true →
      ((applyPlateOps s ops).1).is_subducting = true := by
  intro ops
  induction ops with
  | nil => intro s h; exact h
  | cons op rest ih =>
    intro s h
    exact ih (applyPlateOp s op) (applyPlateOp_flag s op h)

/-- C7: once a `Plate::update_motion` call sets the subducting flag (the
returned started_subduction component is true), the flag remains true after
every subsequent operation on that plate — update_motion with any parameters,
subduct, spread, simulate_transform or simulate_back_arc_spreading, in any
order; no operation transitions it back to false. -/
theorem subducting_one_shot (p : Plate) (lm : LowerMantle) (r d : ℚ)
    (h : (p.update_motion r d).2.1 = true) (ops : List PlateOp) :
    ((applyPlateOps ((p.update_motion r d).1, lm) ops).1).is_subducting = true :=
  applyPlateOps_flag ops ((p.update_motion r d).1, lm)
    (update_motion_started p r d h)

/-- A concrete plate one update_motion call away from the subduction
threshold. -/
def witnessPlate : Plate where
  area_km2 := 1000000
  age_myr := 100
  velocity_cm_per_year := 5
  motion_direction_deg := 0
  is_subducting := false
  is_transform_boundary := true
  shear_stress_mpa := 0
  has_back_arc_spreading := true
  back_arc_spreading_rate_cm_per_year := 2
  volcanic_activity_factor := 0.6

/-- A concrete lower mantle (the `Mantle::new()` initial constants). -/
def witnessLowerMantle : LowerMantle where
  thickness_km := 2200
  temperature_c := 2500
  viscosity := 1e23
  deep_convection_strength := 0.6
  heat_flux_in := 0.02
  heat_flux_out := 0.015
  composition := "Bridgmanite and ferropericlase"
  stored_slab_volume_km3 := 0
  lateral_flow_rate_cm_per_year := 2
  dominant_flow_direction_deg := 60

/-- C7 witness: the one-shot theorem at a concrete plate whose update_motion
call crosses the age threshold, followed by one of each operation. -/
theorem subducting_one_shot_witness :
    (witnessPlate.update_motion 5 90).2.1 = true ∧
    ((applyPlateOps ((witnessPlate.update_motion 5 90).1, witnessLowerMantle)
        [PlateOp.subductOp, PlateOp.motionOp 5 90, PlateOp.spreadOp 10000,
         PlateOp.transformOp, PlateOp.backArcOp]).1).is_subducting = true := by
  have h : (witnessPlate.update_motion 5 90).2.1 = true := by
    unfold Plate.update_motion
    simp only [decide_eq_true_eq]
    norm_num [witnessPlate]
  exact ⟨h, subducting_one_shot witnessPlate witnessLowerMantle 5 90 h _⟩

/-- C8 counterexample: the claim fails as stated.  From a hot spot at
latitude 0, longitude 0 (both in range), `migrate(10000, 0)` computes a
longitude delta of 1000 (cosine of direction 0 is exactly 1); the single ±360
wrap leaves longitude 640, outside [-180, 180]. -/
theorem hotspot_wrap_counterexample :
    ((HotSpot.mk 0 0 0).migrate 10000 0).lon_deg = 640 ∧
    ¬ ((HotSpot.mk 0 0 0).migrate 10000 0).lon_deg ≤ 180 := by
  constructor <;>
    norm_num [HotSpot.migrate, toRadians, sinApprox, cosApprox, ratPI]

/-- C8 (amended): after `HotSpot::migrate` the latitude is always clamped
within [-90, 90], for every starting state and every flow rate and direction;
the longitude ends within [-180, 180] provided it starts there and the
computed longitude delta (flow rate / 10 times the cosine of the direction in
radians) has absolute value at most 360, so that the single ±360 wrap
suffices.  A larger flow can leave the longitude outside the range. -/
theorem hotspot_migrate_amended (h : HotSpot) (rate dir : ℚ) :
    (-90 ≤ (h.migrate rate dir).lat_deg ∧ (h.migrate rate dir).lat_deg ≤ 90) ∧
    (-180 ≤ h.lon_deg → h.lon_deg ≤ 180 →
      |rate / 10 * cosApprox (toRadians dir)| ≤ 360 →
      (-180 ≤ (h.migrate rate dir).lon_deg ∧ (h.migrate rate dir).lon_deg ≤ 180)) := by
  constructor
  · simp only [HotSpot.migrate]
    split_ifs <;> constructor <;> linarith
  · intro hlon1 hlon2 hdelta
    rw [abs_le] at hdelta
    simp only [HotSpot.migrate]
    split_ifs <;> constructor <;> linarith [hdelta.1, hdelta.2]

/-- C8 witness: the amended theorem at a hot spot at (0, 0) with flow rate 10
and direction 0 — the latitude clamp applied directly, the longitude wrap with
its hypotheses discharged. -/
theorem hotspot_migrate_amended_witness :
    (|(10 : ℚ) / 10 * cosApprox (toRadians 0)| ≤ 360) ∧
    ((-90 ≤ ((HotSpot.mk 0 0 0).migrate 10 0).lat_deg ∧
        ((HotSpot.mk 0 0 0).migrate 10 0).lat_deg ≤ 90) ∧
      (-180 ≤ ((HotSpot.mk 0 0 0).migrate 10 0).lon_deg ∧
        ((HotSpot.mk 0 0 0).migrate 10 0).lon_deg ≤ 180)) :=
  ⟨by norm_num [cosApprox, toRadians, ratPI],
   (hotspot_migrate_amended (HotSpot.mk 0 0 0) 10 0).1,
   (hotspot_migrate_amended (HotSpot.mk 0 0 0) 10 0).2 (by norm_num) (by norm_num)
     (by norm_num [cosApprox, toRadians, ratPI])⟩

/-- C9: one mantle step (`Mantle::update_advanced_dynamics`) equals the
spec-worded pipeline: lower-mantle lateral flow, then asthenosphere lateral
flow driven by the lower mantle's deep convection strength; then each plate in
stored order runs update_motion with the asthenosphere's flow rate and
direction, subducts into the lower mantle, triggers crust volcanic growth with
the fixed magma supply 500 exactly when its volcanic_activity_factor exceeds
0.5, and accumulates crust tectonic deformation from its velocity; then
exactly one `Crust::erode(years)` call; then each hot spot migrates with the
asthenosphere's flow rate and direction. -/
theorem mantle_step_structure (m : Mantle) (years : ℚ) :
    m.update_advanced_dynamics years = m.specStep years := by
  have h := processPlates_eq_spec
    ((m.asthenosphere.update_lateral_flow
        (m.lower_mantle.update_lateral_flow).deep_convection_strength).lateral_flow_rate_cm_per_year)
    ((m.asthenosphere.update_lateral_flow
        (m.lower_mantle.update_lateral_flow).deep_convection_strength).dominant_flow_direction_deg)
    m.plates (m.lower_mantle.update_lateral_flow) m.crust StepTotals.init
  simp only [Mantle.update_advanced_dynamics, Mantle.specStep]
  rw [h.1, h.2.1, h.2.2]

/-- C10: `Crust::erode` always returns the computed erosion
erosion_rate · years / 1_000_000, even when the 5 km floor truncates the
thickness change; whenever thickness − erosion would fall below 5, the
returned value strictly exceeds the realized decrease in thickness. -/
theorem erode_returns_computed (c : Crust) (years : ℚ) (hy : 0 ≤ years) :
    (c.erode years).2 = c.erosion_rate_mm_per_yr * years / 1000000 ∧
    (c.thickness_km - c.erosion_rate_mm_per_yr * years / 1000000 < 5 →
      c.thickness_km - (c.erode years).1.thickness_km < (c.erode years).2) := by
  constructor
  · rfl
  · intro h5
    simp only [Crust.erode]
    split_ifs
    linarith

/-- C10 witness: the theorem on the continental crust with 1_000_000_000
years: the computed erosion is 100 km while the realized thickness decrease is
truncated at 30 km by the 5 km floor. -/
theorem erode_returns_computed_witness :
    (0 : ℚ) ≤ 1000000000 ∧
    ((continentalCrust.erode 1000000000).2 =
        continentalCrust.erosion_rate_mm_per_yr * 1000000000 / 1000000 ∧
      (continentalCrust.thickness_km -
          continentalCrust.erosion_rate_mm_per_yr * 1000000000 / 1000000 < 5 →
        continentalCrust.thickness_km -
            (continentalCrust.erode 1000000000).1.thickness_km <
          (continentalCrust.erode 1000000000).2)) :=
  ⟨by norm_num, erode_returns_computed continentalCrust 1000000000 (by norm_num)⟩
